import Mathlib

/-!
Verification development for the alx-backend-graphql CRM backend.

The definitions below are a shallow embedding of the repository's Python
code: the Django ORM's product table is a `List Product`, a mutation is a
pure function from the store (plus the ambient inputs the Python code
reads: the wall clock, and the success or failure of each ORM `save`) to
the new store and the structured GraphQL response.  Fallible steps return
`Except`.
-/

namespace CRM

/-- A row of the Product table (crm/models.py, used by crm/schema.py):
opaque id (the primary key), name, price (a decimal, embedded as `ℚ`),
stock (an integer; Python ints are unbounded, embedded as `ℤ`). -/
structure Product where
  id : Nat
  name : String
  price : ℚ
  stock : Int
deriving DecidableEq

/-- A row of the Customer table (referenced by CreateOrder.mutate). -/
structure Customer where
  id : Nat
  name : String
  email : String
deriving DecidableEq

/-- Embeds `ProductUpdateType` of crm/schema.py: the per-product record
`{id, name, old_stock, new_stock, updated_at}` returned by the low-stock
mutation.  `id` is `str(product.id)` and `updated_at` is
`datetime.now().isoformat()`, both strings. -/
structure ProductUpdateType where
  id : String
  name : String
  old_stock : Int
  new_stock : Int
  updated_at : String
deriving DecidableEq

/-- Embeds `UpdateLowStockProductsResponse` of crm/schema.py. -/
structure UpdateLowStockProductsResponse where
  success : Bool
  message : String
  updated_products : List ProductUpdateType
  total_updated : Nat
deriving DecidableEq

/-- The filter `Product.objects.filter(stock__lt=threshold)` (and the
`low_stock_products` query's resolver): products whose stock is strictly
below the threshold, in table order. -/
def lowStockProducts (threshold : Int) (store : List Product) : List Product :=
  store.filter fun p => p.stock < threshold

/-- One ORM `product.save()`: the row whose primary key matches is
replaced by the saved object. -/
def saveProduct (store : List Product) (p : Product) : List Product :=
  store.map fun q => if q.id = p.id then p else q

/-- The in-loop update `product.stock = new_stock` with
`new_stock = old_stock + increment_by`. -/
def restock (increment_by : Int) (p : Product) : Product :=
  { p with stock := p.stock + increment_by }

/-- The record appended to `updated_products_data` for one product:
`ProductUpdateType(id=str(product.id), name=product.name, old_stock=old_stock,
new_stock=new_stock, updated_at=datetime.now().isoformat())`.  The wall
clock reading is the explicit argument `now`. -/
def mkProductUpdate (now : String) (increment_by : Int) (p : Product) : ProductUpdateType :=
  { id := toString p.id
    name := p.name
    old_stock := p.stock
    new_stock := p.stock + increment_by
    updated_at := now }

/-- Outcome oracle for the ORM saves: for a product id, `none` means the
`save()` call succeeds, `some e` means it raises an exception whose
`str(e)` is `e`.  The oracle makes the exception path of the mutation
(line 351 of crm/schema.py) expressible in the embedding. -/
def SaveOracle : Type := Nat → Option String

/-- The oracle of a normal call: every `save()` succeeds. -/
def noFail : SaveOracle := fun _ => none

/-- The `for product in low_stock_products:` loop of
`UpdateLowStockProducts.mutate` (crm/schema.py lines 326-341): walk the
selected snapshot, save each restocked product, and accumulate the
response records; abort with the exception of the first failing save. -/
def restockLoop (increment_by : Int) (now : String) (saveErr : SaveOracle) :
    List Product → List Product → List ProductUpdateType →
    Except String (List Product × List ProductUpdateType)
  | store, [], acc => Except.ok (store, acc)
  | store, p :: rest, acc =>
    match saveErr p.id with
    | some e => Except.error e
    | none =>
      restockLoop increment_by now saveErr (saveProduct store (restock increment_by p)) rest
        (acc ++ [mkProductUpdate now increment_by p])

/-- Embeds `UpdateLowStockProducts.mutate` (crm/schema.py lines 301-359).
The whole body runs under `@transaction.atomic`; the `except` branch calls
`transaction.set_rollback(True)`, so on failure the store reverts to its
pre-call state, which the embedding renders by returning the original
store alongside the failure response. -/
def updateLowStockProducts (store : List Product) (increment_by threshold : Int)
    (now : String) (saveErr : SaveOracle) :
    List Product × UpdateLowStockProductsResponse :=
  let low_stock_products := lowStockProducts threshold store
  if low_stock_products.isEmpty then
    (store,
      { success := true
        message := "No products found with stock less than " ++ toString threshold
        updated_products := []
        total_updated := 0 })
  else
    match restockLoop increment_by now saveErr store low_stock_products [] with
    | Except.ok (store2, ups) =>
      (store2,
        { success := true
          message := "Successfully updated " ++ toString ups.length ++
            " products with stock less than " ++ toString threshold
          updated_products := ups
          total_updated := ups.length })
    | Except.error e =>
      (store,
        { success := false
          message := "Error updating low-stock products: " ++ e
          updated_products := []
          total_updated := 0 })

/-- Projection of a response record without its `updated_at` field (used
to state which parts of the response are independent of the wall clock). -/
def stripUpdatedAt (u : ProductUpdateType) : String × String × Int × Int :=
  (u.id, u.name, u.old_stock, u.new_stock)

/-- A save oracle on which the product with primary key 2 fails to
persist. -/
def failOnId2 : SaveOracle := fun i => if i = 2 then some "database is locked" else none

/-! ### CreateOrder (crm/schema.py lines 233-277) -/

/-- An Order row as created by `CreateOrder.mutate`: the resolved
customer, the resolved product list (in input order, with multiplicity),
and `total_amount = sum(product.price for product in products)`. -/
structure OrderRecord where
  customer : Customer
  products : List Product
  total_amount : ℚ
deriving DecidableEq

/-- The product-resolution loop of `CreateOrder.mutate` (lines 249-255):
`Product.objects.get(id=product_id)` for each requested id, appending in
order; the first missing id raises
`Product with ID '<id>' does not exist`. -/
def lookupOrderProducts (products : List Product) : List Nat → Except String (List Product)
  | [] => Except.ok []
  | pid :: rest =>
    match products.find? (fun p => p.id == pid) with
    | none => Except.error ("Product with ID \x27" ++ toString pid ++ "\x27 does not exist")
    | some p => (lookupOrderProducts products rest).map (fun ps => p :: ps)

/-- Embeds `CreateOrder.mutate` (crm/schema.py lines 239-272): resolve the
customer (error naming the id if absent), resolve every product (error
naming the first absent id), require at least one product, then create the
order with `total_amount` the sum of the resolved products' prices.
Raised `ValidationError`s surface to the caller as `Except.error`. -/
def createOrder (customers : List Customer) (products : List Product)
    (customer_id : Nat) (product_ids : List Nat) : Except String OrderRecord :=
  match customers.find? (fun c => c.id == customer_id) with
  | none => Except.error ("Customer with ID \x27" ++ toString customer_id ++ "\x27 does not exist")
  | some customer =>
    match lookupOrderProducts products product_ids with
    | Except.error e => Except.error e
    | Except.ok prods =>
      if prods.isEmpty then Except.error "At least one product is required"
      else
        Except.ok
          { customer := customer
            products := prods
            total_amount := (prods.map Product.price).sum }

/-! ### Heartbeat (crm/cron.py lines 35-157) -/

/-- Outcome of the network part of the health probe, as seen inside
`check_graphql_health`'s `try` block: the GraphQL execution raises, or
returns a result that does or does not contain the key `hello`. -/
inductive ProbeStep where
  | raises
  | helloPresent
  | helloAbsent
deriving DecidableEq

/-- Embeds `check_graphql_health` (crm/cron.py lines 76-119): `False` when
the gql library is unavailable; otherwise `True` exactly when the query
returns a result containing `hello`; every exception inside the `try` is
caught and yields `False`.  The function is total: it never raises. -/
def check_graphql_health (available : Bool) (step : ProbeStep) : Bool :=
  if available then
    match step with
    | ProbeStep.raises => false
    | ProbeStep.helloPresent => true
    | ProbeStep.helloAbsent => false
  else false

/-- Embeds the status computation of `log_crm_heartbeat` (crm/cron.py
lines 134-143), taking as input what the call to `check_graphql_health`
did (`Except.error` standing for an exception escaping it, the case the
surrounding `try`/`except` defends against). -/
def heartbeatStatus (available : Bool) (chk : Except Unit Bool) : String :=
  if available then
    match chk with
    | Except.ok true => "Healthy"
    | Except.ok false => "Unhealthy"
    | Except.error _ => "Check failed"
  else "Not checked (gql not available)"

/-- Embeds `log_crm_heartbeat` (crm/cron.py lines 121-157) given the
outcome `chk` of the health-check call: compute the status, build
`"<ts> CRM is alive | GraphQL: <status>"`, and append it (prefixed by
`log_to_file`'s own `[<wallTs>] ` stamp) to the heartbeat log.  Returns
the new log and the function's return string. -/
def log_crm_heartbeat (available : Bool) (chk : Except Unit Bool) (ts wallTs : String)
    (log : List String) : List String × String :=
  let graphql_status := heartbeatStatus available chk
  let enhanced_message := ts ++ " CRM is alive | GraphQL: " ++ graphql_status
  (log ++ ["[" ++ wallTs ++ "] " ++ enhanced_message], "Heartbeat logged at " ++ ts)

/-- The composed heartbeat as the code runs it: the health check is the
actual `check_graphql_health`, which returns normally on every probe
outcome. -/
def log_crm_heartbeat_run (available : Bool) (step : ProbeStep) (ts wallTs : String)
    (log : List String) : List String × String :=
  log_crm_heartbeat available (Except.ok (check_graphql_health available step)) ts wallTs log

/-! ### Reminder reporter (crm/cron_jobs/send_order_reminders.py) -/

/-- The fields of an order that `main`'s logging consumes. -/
structure OrderInfo where
  orderNumber : String
  orderDate : String
  status : String
  totalAmount : ℚ
  customerEmail : String
deriving DecidableEq

/-- Embeds `log_order_reminders` (send_order_reminders.py lines 205-244):
one informational line when no orders were found, otherwise a count line
followed by one formatted line per order. -/
def log_order_reminders (orders : List OrderInfo) : List String :=
  if orders.isEmpty then ["No pending orders found from the last 7 days."]
  else
    ("Found " ++ toString orders.length ++ " pending orders from the last 7 days:") ::
      orders.map (fun o =>
        "Order #" ++ o.orderNumber ++ " - Date: " ++ o.orderDate ++ ", Status: " ++ o.status ++
          ", Amount: $" ++ toString o.totalAmount ++ ", Customer: " ++ o.customerEmail)

/-- Embeds `main` (send_order_reminders.py lines 246-292).  The oracles
are the outcomes of the three external steps `main` performs:
`clientCtor` is `get_graphql_client()` (line 254), `q1` the primary query
shape `get_recent_pending_orders` (line 263), and `q2` the alternative
shape `get_recent_pending_orders_alternative` together with its internal
simple fallback (line 267) — an `Except.error` of `q2` means every query
shape failed.  Returns the exit code and the log lines. -/
def reporterMain (clientCtor : Except String Unit)
    (q1 q2 : Except String (List OrderInfo)) : Nat × List String :=
  let log0 := ["Starting order reminder processing..."]
  match clientCtor with
  | Except.error e =>
    (1, log0 ++ ["Critical error in order reminder script: " ++ e])
  | Except.ok _ =>
    let log1 := log0 ++
      ["Connected to GraphQL endpoint: http://localhost:8000/graphql",
       "Querying for pending orders from the last 7 days..."]
    let ordersLog :=
      match q1 with
      | Except.ok os => (os, log1)
      | Except.error e1 =>
        match q2 with
        | Except.ok os => (os, log1 ++ ["First query approach failed: " ++ e1])
        | Except.error e2 =>
          ([], log1 ++ ["First query approach failed: " ++ e1,
                        "All GraphQL query approaches failed: " ++ e2])
    (0, ordersLog.2 ++ log_order_reminders ordersLog.1 ++ ["Order reminders processed!"])

/-! Core lemmas about the no-failure run of the mutation. -/

theorem restock_id (increment_by : Int) (p : Product) : (restock increment_by p).id = p.id := rfl

/-- On a run where every save succeeds, the loop returns the fold of the
saves and the response records of the processed products, in order. -/
theorem restockLoop_noFail (increment_by : Int) (now : String) :
    ∀ (todo store : List Product) (acc : List ProductUpdateType),
      restockLoop increment_by now noFail store todo acc =
        Except.ok (todo.foldl (fun s p => saveProduct s (restock increment_by p)) store,
          acc ++ todo.map (mkProductUpdate now increment_by)) := by
  intro todo
  induction todo with
  | nil => intro store acc; simp [restockLoop]
  | cons p rest ih =>
    intro store acc
    simp [restockLoop, noFail, ih]

/-- The accumulated effect of the loop's saves on one store row. -/
def replaceBy (increment_by : Int) (todo : List Product) (r : Product) : Product :=
  todo.foldl (fun cur p => if cur.id = p.id then restock increment_by p else cur) r

/-- A sequence of saves is a pointwise map over the store. -/
theorem foldl_save_eq_map (increment_by : Int) :
    ∀ (todo store : List Product),
      todo.foldl (fun s p => saveProduct s (restock increment_by p)) store =
        store.map (replaceBy increment_by todo) := by
  intro todo
  induction todo with
  | nil =>
    intro store
    exact (List.map_id' store).symm
  | cons p rest ih =>
    intro store
    rw [List.foldl_cons, ih]
    simp only [saveProduct, List.map_map]
    apply List.map_congr_left
    intro q _
    simp [Function.comp, replaceBy, List.foldl_cons, restock]

/-- Once a row has been saved, later saves of products with the same id
(which, under distinct ids, can only be the row itself) leave it at its
restocked value. -/
theorem replaceBy_restock (increment_by : Int) (r : Product) :
    ∀ (todo : List Product), (∀ p ∈ todo, p.id = r.id → p = r) →
      replaceBy increment_by todo (restock increment_by r) = restock increment_by r := by
  intro todo
  induction todo with
  | nil => intro _; rfl
  | cons p rest ih =>
    intro h
    simp only [replaceBy, List.foldl_cons]
    have hrest : ∀ q ∈ rest, q.id = r.id → q = r := fun q hq => h q (List.mem_cons_of_mem _ hq)
    by_cases hid : (restock increment_by r).id = p.id
    · have hp : p = r := h p (List.mem_cons_self _ _) (by rw [restock_id] at hid; exact hid.symm)
      subst hp
      rw [if_pos hid]
      exact ih hrest
    · rw [if_neg hid]
      exact ih hrest

/-- Effect of the whole loop on a row none of whose id twins (there are
none besides itself, under distinct ids) is distinct from it: restocked
when it is in the processed list, untouched otherwise. -/
theorem replaceBy_eq (increment_by : Int) (r : Product) :
    ∀ (todo : List Product), (∀ p ∈ todo, p.id = r.id → p = r) →
      replaceBy increment_by todo r = if r ∈ todo then restock increment_by r else r := by
  intro todo
  induction todo with
  | nil => intro _; simp [replaceBy]
  | cons p rest ih =>
    intro h
    have hrest : ∀ q ∈ rest, q.id = r.id → q = r := fun q hq => h q (List.mem_cons_of_mem _ hq)
    simp only [replaceBy, List.foldl_cons]
    by_cases hid : r.id = p.id
    · have hp : p = r := h p (List.mem_cons_self _ _) hid.symm
      subst hp
      rw [if_pos rfl, if_pos (List.mem_cons_self _ _)]
      exact replaceBy_restock increment_by p rest hrest
    · have hne : r ≠ p := fun e => hid (by rw [e])
      rw [if_neg hid]
      have hmem : (if r ∈ p :: rest then restock increment_by r else r) =
          (if r ∈ rest then restock increment_by r else r) := by
        by_cases hm : r ∈ rest
        · rw [if_pos hm, if_pos (List.mem_cons_of_mem _ hm)]
        · rw [if_neg hm, if_neg (fun hc => (List.mem_cons.mp hc).elim hne hm)]
      rw [hmem]
      exact ih hrest

/-- Membership in the low-stock selection. -/
theorem mem_lowStockProducts {threshold : Int} {store : List Product} {p : Product} :
    p ∈ lowStockProducts threshold store ↔ p ∈ store ∧ p.stock < threshold := by
  simp [lowStockProducts]

/-- Master description of the store after a fully successful call: every
row with stock below the threshold is restocked, every other row is
untouched, and the table keeps its shape.  Uses that primary keys are
distinct. -/
theorem updateLowStockProducts_store (store : List Product) (increment_by threshold : Int)
    (now : String) (hids : (store.map Product.id).Nodup) :
    (updateLowStockProducts store increment_by threshold now noFail).1 =
      store.map (fun p => if p.stock < threshold then restock increment_by p else p) := by
  unfold updateLowStockProducts
  by_cases hempty : (lowStockProducts threshold store).isEmpty
  · rw [if_pos hempty]
    have hnone : ∀ p ∈ store, ¬ (p.stock < threshold) := by
      intro p hp hlt
      have : p ∈ lowStockProducts threshold store := mem_lowStockProducts.mpr ⟨hp, hlt⟩
      rw [List.isEmpty_iff.mp hempty] at this
      exact absurd this (List.not_mem_nil p)
    have : store.map (fun p => if p.stock < threshold then restock increment_by p else p) =
        store.map (fun p => p) := by
      apply List.map_congr_left
      intro p hp
      rw [if_neg (hnone p hp)]
    rw [this, List.map_id']
  · rw [if_neg hempty]
    rw [restockLoop_noFail]
    simp only [foldl_save_eq_map]
    apply List.map_congr_left
    intro r hr
    have hinj := List.inj_on_of_nodup_map hids
    have hcond : ∀ p ∈ lowStockProducts threshold store, p.id = r.id → p = r := by
      intro p hp hpid
      exact hinj (mem_lowStockProducts.mp hp).1 hr hpid
    rw [replaceBy_eq increment_by r _ hcond]
    by_cases hq : r.stock < threshold
    · rw [if_pos (mem_lowStockProducts.mpr ⟨hr, hq⟩), if_pos hq]
    · rw [if_neg (fun hmem => hq (mem_lowStockProducts.mp hmem).2), if_neg hq]

/-- Master description of the response of a fully successful call. -/
theorem updateLowStockProducts_result (store : List Product) (increment_by threshold : Int)
    (now : String) :
    (updateLowStockProducts store increment_by threshold now noFail).2 =
      (if (lowStockProducts threshold store).isEmpty then
        { success := true
          message := "No products found with stock less than " ++ toString threshold
          updated_products := []
          total_updated := 0 }
      else
        { success := true
          message := "Successfully updated " ++ toString (lowStockProducts threshold store).length ++
            " products with stock less than " ++ toString threshold
          updated_products := (lowStockProducts threshold store).map
            (mkProductUpdate now increment_by)
          total_updated := (lowStockProducts threshold store).length }) := by
  unfold updateLowStockProducts
  by_cases h : (lowStockProducts threshold store).isEmpty
  · rw [if_pos h, if_pos h]
  · rw [if_neg h, if_neg h, restockLoop_noFail]
    simp

/-- If the processed list contains a product whose save fails, the loop
raises (returns the exception of the first such product). -/
theorem restockLoop_fails (increment_by : Int) (now : String) (saveErr : SaveOracle) :
    ∀ (todo store : List Product) (acc : List ProductUpdateType),
      (∃ p ∈ todo, (saveErr p.id).isSome) →
      ∃ e, restockLoop increment_by now saveErr store todo acc = Except.error e := by
  intro todo
  induction todo with
  | nil =>
    intro store acc h
    rcases h with ⟨p, hp, _⟩
    exact absurd hp (List.not_mem_nil p)
  | cons p rest ih =>
    intro store acc h
    cases herr : saveErr p.id with
    | some e =>
      refine ⟨e, ?_⟩
      simp [restockLoop, herr]
    | none =>
      have hrest : ∃ q ∈ rest, (saveErr q.id).isSome := by
        rcases h with ⟨q, hq, hqs⟩
        rcases List.mem_cons.mp hq with rfl | hq2
        · rw [herr] at hqs
          exact absurd hqs (by simp)
        · exact ⟨q, hq2, hqs⟩
      obtain ⟨e, he⟩ := ih (saveProduct store (restock increment_by p))
        (acc ++ [mkProductUpdate now increment_by p]) hrest
      refine ⟨e, ?_⟩
      simp [restockLoop, herr, he]

/-- A fully successful call always reports success, whether or not any
product qualified. -/
theorem updateLowStockProducts_noFail_success (store : List Product)
    (increment_by threshold : Int) (now : String) :
    (updateLowStockProducts store increment_by threshold now noFail).2.success = true := by
  rw [updateLowStockProducts_result]
  by_cases h : (lowStockProducts threshold store).isEmpty <;> simp [h]

/-- The resulting store of a fully successful call does not depend on the
wall clock. -/
theorem updateLowStockProducts_store_clock_indep (store : List Product)
    (increment_by threshold : Int) (n1 n2 : String) :
    (updateLowStockProducts store increment_by threshold n1 noFail).1 =
      (updateLowStockProducts store increment_by threshold n2 noFail).1 := by
  unfold updateLowStockProducts
  by_cases h : (lowStockProducts threshold store).isEmpty
  · rw [if_pos h, if_pos h]
  · rw [if_neg h, if_neg h, restockLoop_noFail, restockLoop_noFail]

/-! ## The claims -/

/-- C1: for every store state (rows with distinct primary keys) and every
call to the replenish mutation with integer threshold and increment in
which every save succeeds, every product whose stock was strictly less
than the threshold before the call has stock `old_stock + increment`
after the call, and every product whose stock was at least the threshold
is unchanged. -/
theorem C1_replenish_per_product (store : List Product) (increment_by threshold : Int)
    (now : String) (hids : (store.map Product.id).Nodup)
    (i : Nat) (p : Product) (hp : store[i]? = some p) :
    (p.stock < threshold →
      (updateLowStockProducts store increment_by threshold now noFail).1[i]? =
        some { p with stock := p.stock + increment_by }) ∧
    (threshold ≤ p.stock →
      (updateLowStockProducts store increment_by threshold now noFail).1[i]? = some p) := by
  rw [updateLowStockProducts_store store increment_by threshold now hids]
  rw [List.getElem?_map, hp]
  constructor
  · intro hlt
    simp [restock, hlt]
  · intro hge
    simp [not_lt.mpr hge]

/-- Witness for C1 on the spec's own example: Laptop (stock 5) rises to
15, Phone (stock 20) is untouched. -/
theorem C1_witness :
    (updateLowStockProducts [⟨1, "Laptop", 999, 5⟩, ⟨2, "Phone", 699, 20⟩]
        10 10 "T" noFail).1[0]? = some ⟨1, "Laptop", 999, 15⟩ ∧
    (updateLowStockProducts [⟨1, "Laptop", 999, 5⟩, ⟨2, "Phone", 699, 20⟩]
        10 10 "T" noFail).1[1]? = some ⟨2, "Phone", 699, 20⟩ :=
  ⟨(C1_replenish_per_product [⟨1, "Laptop", 999, 5⟩, ⟨2, "Phone", 699, 20⟩] 10 10 "T"
      (by decide) 0 ⟨1, "Laptop", 999, 5⟩ (by decide)).1 (by decide),
   (C1_replenish_per_product [⟨1, "Laptop", 999, 5⟩, ⟨2, "Phone", 699, 20⟩] 10 10 "T"
      (by decide) 1 ⟨2, "Phone", 699, 20⟩ (by decide)).2 (by decide)⟩

/-- C2: if persisting any qualifying product fails, the whole call rolls
back (the store is unchanged) and returns a structured failure response
`success = false`, message `Error updating low-stock products: <cause>`,
no updated products and `total_updated = 0`, instead of propagating the
exception (the embedding returns a value, never an `Except`, at the
mutation's boundary). -/
theorem C2_failure_rolls_back (store : List Product) (increment_by threshold : Int)
    (now : String) (saveErr : SaveOracle)
    (hfail : ∃ p ∈ lowStockProducts threshold store, (saveErr p.id).isSome) :
    (updateLowStockProducts store increment_by threshold now saveErr).1 = store ∧
    (updateLowStockProducts store increment_by threshold now saveErr).2.success = false ∧
    (∃ e, (updateLowStockProducts store increment_by threshold now saveErr).2.message =
      "Error updating low-stock products: " ++ e) ∧
    (updateLowStockProducts store increment_by threshold now saveErr).2.updated_products = [] ∧
    (updateLowStockProducts store increment_by threshold now saveErr).2.total_updated = 0 := by
  have hne : ¬ (lowStockProducts threshold store).isEmpty := by
    rcases hfail with ⟨p, hp, _⟩
    intro he
    rw [List.isEmpty_iff.mp he] at hp
    exact List.not_mem_nil p hp
  obtain ⟨e, he⟩ := restockLoop_fails increment_by now saveErr _ store [] hfail
  unfold updateLowStockProducts
  rw [if_neg hne, he]
  exact ⟨rfl, rfl, ⟨e, rfl⟩, rfl, rfl⟩

/-- Witness for C2: two qualifying products; the save of the second one
fails, and the already-saved first one is rolled back too. -/
theorem C2_witness :
    (updateLowStockProducts [⟨1, "A", 2, 3⟩, ⟨2, "B", 2, 4⟩] 10 10 "T" failOnId2).1 =
      [⟨1, "A", 2, 3⟩, ⟨2, "B", 2, 4⟩] ∧
    (updateLowStockProducts [⟨1, "A", 2, 3⟩, ⟨2, "B", 2, 4⟩] 10 10 "T" failOnId2).2.success =
      false ∧
    (∃ e, (updateLowStockProducts [⟨1, "A", 2, 3⟩, ⟨2, "B", 2, 4⟩] 10 10 "T"
        failOnId2).2.message = "Error updating low-stock products: " ++ e) ∧
    (updateLowStockProducts [⟨1, "A", 2, 3⟩, ⟨2, "B", 2, 4⟩] 10 10 "T"
        failOnId2).2.updated_products = [] ∧
    (updateLowStockProducts [⟨1, "A", 2, 3⟩, ⟨2, "B", 2, 4⟩] 10 10 "T"
        failOnId2).2.total_updated = 0 :=
  C2_failure_rolls_back [⟨1, "A", 2, 3⟩, ⟨2, "B", 2, 4⟩] 10 10 "T" failOnId2 (by decide)

/-- C3: `total_updated` equals the length of `updated_products` on every
call (any save-outcome oracle); on a call where persistence succeeds both
equal the number of products that had `stock < threshold` at call time,
and when that number N is nonzero the message is
`Successfully updated N products with stock less than <threshold>`. -/
theorem C3_counts_and_message (store : List Product) (increment_by threshold : Int)
    (now : String) :
    (∀ saveErr : SaveOracle,
      (updateLowStockProducts store increment_by threshold now saveErr).2.total_updated =
        (updateLowStockProducts store increment_by threshold now
          saveErr).2.updated_products.length) ∧
    (updateLowStockProducts store increment_by threshold now noFail).2.total_updated =
      (lowStockProducts threshold store).length ∧
    ((lowStockProducts threshold store).length ≠ 0 →
      (updateLowStockProducts store increment_by threshold now noFail).2.message =
        "Successfully updated " ++ toString (lowStockProducts threshold store).length ++
          " products with stock less than " ++ toString threshold) := by
  refine ⟨?_, ?_, ?_⟩
  · intro saveErr
    unfold updateLowStockProducts
    by_cases h : (lowStockProducts threshold store).isEmpty
    · rw [if_pos h]
      rfl
    · rw [if_neg h]
      cases hres : restockLoop increment_by now saveErr store
          (lowStockProducts threshold store) [] with
      | ok v =>
        obtain ⟨store2, ups⟩ := v
        rfl
      | error e =>
        rfl
  · rw [updateLowStockProducts_result]
    by_cases h : (lowStockProducts threshold store).isEmpty
    · rw [if_pos h]
      simp [List.isEmpty_iff.mp h]
    · rw [if_neg h]
  · intro hN
    rw [updateLowStockProducts_result]
    have h : ¬ (lowStockProducts threshold store).isEmpty := by
      intro he
      rw [List.isEmpty_iff.mp he] at hN
      exact hN rfl
    rw [if_neg h]

/-- Witness for C3 on the spec's example inventory. -/
theorem C3_witness :
    (updateLowStockProducts [⟨1, "Laptop", 999, 5⟩, ⟨2, "Phone", 699, 20⟩, ⟨3, "Tablet", 399, 9⟩]
        10 10 "T" noFail).2.total_updated =
      (lowStockProducts 10
        [⟨1, "Laptop", 999, 5⟩, ⟨2, "Phone", 699, 20⟩, ⟨3, "Tablet", 399, 9⟩]).length ∧
    (updateLowStockProducts [⟨1, "Laptop", 999, 5⟩, ⟨2, "Phone", 699, 20⟩, ⟨3, "Tablet", 399, 9⟩]
        10 10 "T" noFail).2.message =
      "Successfully updated 2 products with stock less than 10" :=
  ⟨(C3_counts_and_message
      [⟨1, "Laptop", 999, 5⟩, ⟨2, "Phone", 699, 20⟩, ⟨3, "Tablet", 399, 9⟩] 10 10 "T").2.1,
   (C3_counts_and_message
      [⟨1, "Laptop", 999, 5⟩, ⟨2, "Phone", 699, 20⟩, ⟨3, "Tablet", 399, 9⟩] 10 10 "T").2.2
     (by decide)⟩

/-- C4: when no product has stock strictly below the threshold, the call
succeeds (it is not an error), reports
`No products found with stock less than <threshold>` with no updated
products and `total_updated = 0`, and leaves the store untouched — under
every save-outcome oracle, since no save is attempted. -/
theorem C4_no_qualifying_products (store : List Product) (increment_by threshold : Int)
    (now : String) (saveErr : SaveOracle)
    (h : ∀ p ∈ store, ¬ (p.stock < threshold)) :
    updateLowStockProducts store increment_by threshold now saveErr =
      (store,
        { success := true
          message := "No products found with stock less than " ++ toString threshold
          updated_products := []
          total_updated := 0 }) := by
  have hempty : (lowStockProducts threshold store).isEmpty := by
    rw [List.isEmpty_iff, lowStockProducts, List.filter_eq_nil_iff]
    intro p hp
    simp [h p hp]
  unfold updateLowStockProducts
  rw [if_pos hempty]

/-- Witness for C4: an inventory with no product below 10. -/
theorem C4_witness :
    updateLowStockProducts [⟨1, "Mouse", 29, 100⟩, ⟨2, "Monitor", 299, 20⟩] 10 10 "T" noFail =
      ([⟨1, "Mouse", 29, 100⟩, ⟨2, "Monitor", 299, 20⟩],
        { success := true
          message := "No products found with stock less than 10"
          updated_products := []
          total_updated := 0 }) :=
  C4_no_qualifying_products [⟨1, "Mouse", 29, 100⟩, ⟨2, "Monitor", 299, 20⟩] 10 10 "T" noFail
    (by decide)

/-- C5: with a non-negative increment, the set of rows qualifying after a
successful call is a subset (row by row) of the set qualifying before it,
and in particular an immediately repeated call with the same threshold
selects at most as many products. -/
theorem C5_qualifying_set_shrinks (store : List Product) (increment_by threshold : Int)
    (now : String) (hids : (store.map Product.id).Nodup) (_hinc : 0 ≤ increment_by) :
    (∀ (i : Nat) (q : Product),
      (updateLowStockProducts store increment_by threshold now noFail).1[i]? = some q →
      q.stock < threshold →
      ∃ p, store[i]? = some p ∧ p.stock < threshold) ∧
    (lowStockProducts threshold
        (updateLowStockProducts store increment_by threshold now noFail).1).length ≤
      (lowStockProducts threshold store).length := by
  rw [updateLowStockProducts_store store increment_by threshold now hids]
  constructor
  · intro i q hq hlt
    rw [List.getElem?_map] at hq
    cases hp : store[i]? with
    | none => rw [hp] at hq; exact absurd hq (by simp)
    | some p =>
      rw [hp] at hq
      refine ⟨p, rfl, ?_⟩
      have hqe : (if p.stock < threshold then restock increment_by p else p) = q := by
        simpa using hq
      by_cases hc : p.stock < threshold
      · exact hc
      · rw [if_neg hc] at hqe
        rw [hqe]
        exact hlt
  · rw [lowStockProducts, lowStockProducts, ← List.countP_eq_length_filter,
      ← List.countP_eq_length_filter, List.countP_map]
    apply List.countP_mono_left
    intro p _ hdec
    by_cases hc : p.stock < threshold
    · simp [hc]
    · rw [Function.comp, if_neg hc] at hdec
      exact hdec

/-- Witness for C5: one product below threshold is pushed above it, so
the repeat selection is empty. -/
theorem C5_witness :
    (lowStockProducts 10
        (updateLowStockProducts [⟨1, "Tablet", 399, 9⟩] 10 10 "T" noFail).1).length ≤
      (lowStockProducts 10 [⟨1, "Tablet", 399, 9⟩]).length :=
  (C5_qualifying_set_shrinks [⟨1, "Tablet", 399, 9⟩] 10 10 "T" (by decide) (by decide)).2

/-- C6 counterexample: the claim demands that two runs started from
identical store states return identical results including each record's
`updated_at`, but `updated_at` is `datetime.now().isoformat()` — a wall
clock reading, not a function of the store state.  Two calls on the same
store at different times return different responses. -/
theorem C6_counterexample :
    (updateLowStockProducts [⟨1, "Widget", 5, 3⟩] 10 10 "2026-01-01T00:00:00" noFail).2 ≠
      (updateLowStockProducts [⟨1, "Widget", 5, 3⟩] 10 10 "2026-01-01T00:05:00" noFail).2 := by
  decide

/-- C6 amended: each invocation is deterministic given the store's state
and the clock reading of the call.  From identical store states, two runs
produce the identical resulting store and agree on success, message,
total_updated, and on every returned record's id, name, old_stock and
new_stock; the `updated_at` field additionally depends on the invocation
time, and runs with equal clock readings agree completely. -/
theorem C6_deterministic_given_clock (store : List Product) (increment_by threshold : Int)
    (n1 n2 : String) :
    (updateLowStockProducts store increment_by threshold n1 noFail).1 =
      (updateLowStockProducts store increment_by threshold n2 noFail).1 ∧
    (updateLowStockProducts store increment_by threshold n1 noFail).2.success =
      (updateLowStockProducts store increment_by threshold n2 noFail).2.success ∧
    (updateLowStockProducts store increment_by threshold n1 noFail).2.message =
      (updateLowStockProducts store increment_by threshold n2 noFail).2.message ∧
    (updateLowStockProducts store increment_by threshold n1 noFail).2.total_updated =
      (updateLowStockProducts store increment_by threshold n2 noFail).2.total_updated ∧
    (updateLowStockProducts store increment_by threshold
        n1 noFail).2.updated_products.map stripUpdatedAt =
      (updateLowStockProducts store increment_by threshold
        n2 noFail).2.updated_products.map stripUpdatedAt ∧
    (n1 = n2 →
      updateLowStockProducts store increment_by threshold n1 noFail =
        updateLowStockProducts store increment_by threshold n2 noFail) := by
  refine ⟨updateLowStockProducts_store_clock_indep store increment_by threshold n1 n2,
    ?_, ?_, ?_, ?_, ?_⟩
  · rw [updateLowStockProducts_result, updateLowStockProducts_result]
    by_cases h : (lowStockProducts threshold store).isEmpty <;> simp [h]
  · rw [updateLowStockProducts_result, updateLowStockProducts_result]
    by_cases h : (lowStockProducts threshold store).isEmpty <;> simp [h]
  · rw [updateLowStockProducts_result, updateLowStockProducts_result]
    by_cases h : (lowStockProducts threshold store).isEmpty <;> simp [h]
  · rw [updateLowStockProducts_result, updateLowStockProducts_result]
    by_cases h : (lowStockProducts threshold store).isEmpty
    · simp [h]
    · simp only [if_neg h, List.map_map]
      apply List.map_congr_left
      intro p _
      rfl
  · intro hn
    rw [hn]

/-- Witness for the amended C6. -/
theorem C6_witness :
    (updateLowStockProducts [⟨1, "Widget", 5, 3⟩] 10 10 "T1" noFail).1 =
      (updateLowStockProducts [⟨1, "Widget", 5, 3⟩] 10 10 "T2" noFail).1 ∧
    (updateLowStockProducts [⟨1, "Widget", 5, 3⟩] 10 10 "T1"
        noFail).2.updated_products.map stripUpdatedAt =
      (updateLowStockProducts [⟨1, "Widget", 5, 3⟩] 10 10 "T2"
        noFail).2.updated_products.map stripUpdatedAt ∧
    updateLowStockProducts [⟨1, "Widget", 5, 3⟩] 10 10 "T1" noFail =
      updateLowStockProducts [⟨1, "Widget", 5, 3⟩] 10 10 "T1" noFail :=
  ⟨(C6_deterministic_given_clock [⟨1, "Widget", 5, 3⟩] 10 10 "T1" "T2").1,
   (C6_deterministic_given_clock [⟨1, "Widget", 5, 3⟩] 10 10 "T1" "T2").2.2.2.2.1,
   (C6_deterministic_given_clock [⟨1, "Widget", 5, 3⟩] 10 10 "T1" "T1").2.2.2.2.2 rfl⟩

/-- C10: the mutation validates neither `increment_by` nor `threshold`:
for every integer increment (negative ones included) each qualifying
product's stock is set to exactly `old_stock + increment_by` and the call
reports success; concretely, a product with stock 3 restocked with
increment -7 ends at stock -4 on a successful call, so the operation does
not preserve the Product stock non-negativity invariant that
`CreateProduct.mutate` enforces on creation. -/
theorem C10_no_increment_validation :
    (∀ (store : List Product) (increment_by threshold : Int) (now : String),
      (store.map Product.id).Nodup →
      ∀ (i : Nat) (p : Product), store[i]? = some p → p.stock < threshold →
        (updateLowStockProducts store increment_by threshold now noFail).1[i]? =
          some { p with stock := p.stock + increment_by } ∧
        (updateLowStockProducts store increment_by threshold now noFail).2.success = true) ∧
    (updateLowStockProducts [⟨1, "Widget", 5, 3⟩] (-7) 10 "T" noFail).1 =
      [⟨1, "Widget", 5, -4⟩] ∧
    (updateLowStockProducts [⟨1, "Widget", 5, 3⟩] (-7) 10 "T" noFail).2.success = true ∧
    (-4 : Int) < 0 := by
  refine ⟨?_, by decide, by decide, by decide⟩
  intro store increment_by threshold now hids i p hp hlt
  constructor
  · rw [updateLowStockProducts_store store increment_by threshold now hids]
    rw [List.getElem?_map, hp]
    simp [restock, hlt]
  · exact updateLowStockProducts_noFail_success store increment_by threshold now

/-- Witness for C10's universal part at a concrete store. -/
theorem C10_witness :
    (updateLowStockProducts [⟨3, "Cable", 2, 1⟩] (-5) 10 "T" noFail).1[0]? =
      some ⟨3, "Cable", 2, -4⟩ ∧
    (updateLowStockProducts [⟨3, "Cable", 2, 1⟩] (-5) 10 "T" noFail).2.success = true :=
  C10_no_increment_validation.1 [⟨3, "Cable", 2, 1⟩] (-5) 10 "T" (by decide) 0
    ⟨3, "Cable", 2, 1⟩ (by decide) (by decide)

/-- When some requested product id is absent, the resolution loop fails
with an error naming a missing id (the first one, in input order). -/
theorem lookupOrderProducts_missing (products : List Product) :
    ∀ (pids : List Nat), (∃ pid ∈ pids, products.find? (fun p => p.id == pid) = none) →
      ∃ m ∈ pids, products.find? (fun p => p.id == m) = none ∧
        lookupOrderProducts products pids =
          Except.error ("Product with ID \x27" ++ toString m ++ "\x27 does not exist") := by
  intro pids
  induction pids with
  | nil =>
    intro h
    rcases h with ⟨pid, hmem, _⟩
    exact absurd hmem (List.not_mem_nil pid)
  | cons pid rest ih =>
    intro h
    cases hfind : products.find? (fun p => p.id == pid) with
    | none =>
      exact ⟨pid, List.mem_cons_self _ _, hfind, by simp [lookupOrderProducts, hfind]⟩
    | some p =>
      have hrest : ∃ q ∈ rest, products.find? (fun x => x.id == q) = none := by
        rcases h with ⟨q, hq, hqn⟩
        rcases List.mem_cons.mp hq with rfl | hq2
        · rw [hfind] at hqn
          exact absurd hqn (by simp)
        · exact ⟨q, hq2, hqn⟩
      obtain ⟨m, hm, hmn, heq⟩ := ih hrest
      refine ⟨m, List.mem_cons_of_mem _ hm, hmn, ?_⟩
      simp [lookupOrderProducts, hfind, heq, Except.map]

/-- C7: every order that CreateOrder successfully creates stores
`total_amount` equal to the sum of the prices of its linked products at
creation time (and links at least one product); creation fails with a
descriptive error naming the missing identifier when the referenced
customer or any referenced product does not exist, and fails when the
product list is empty. -/
theorem C7_create_order (customers : List Customer) (products : List Product)
    (customer_id : Nat) (product_ids : List Nat) :
    (∀ o, createOrder customers products customer_id product_ids = Except.ok o →
      o.total_amount = (o.products.map Product.price).sum ∧ o.products ≠ []) ∧
    (customers.find? (fun c => c.id == customer_id) = none →
      createOrder customers products customer_id product_ids =
        Except.error ("Customer with ID \x27" ++ toString customer_id ++
          "\x27 does not exist")) ∧
    ((∃ c, customers.find? (fun c2 => c2.id == customer_id) = some c) →
      (∃ pid ∈ product_ids, products.find? (fun p => p.id == pid) = none) →
      ∃ m ∈ product_ids, products.find? (fun p => p.id == m) = none ∧
        createOrder customers products customer_id product_ids =
          Except.error ("Product with ID \x27" ++ toString m ++ "\x27 does not exist")) ∧
    ((∃ c, customers.find? (fun c2 => c2.id == customer_id) = some c) → product_ids = [] →
      createOrder customers products customer_id product_ids =
        Except.error "At least one product is required") := by
  refine ⟨?_, ?_, ?_, ?_⟩
  · intro o ho
    unfold createOrder at ho
    split at ho
    · exact absurd ho (by simp)
    · split at ho
      · exact absurd ho (by simp)
      · split at ho
        · exact absurd ho (by simp)
        · rename_i he
          rw [Except.ok.injEq] at ho
          subst ho
          exact ⟨rfl, fun hnil => he (List.isEmpty_iff.mpr hnil)⟩
  · intro hc
    unfold createOrder
    rw [hc]
  · intro hcust hmiss
    obtain ⟨m, hm, hmn, heq⟩ := lookupOrderProducts_missing products product_ids hmiss
    refine ⟨m, hm, hmn, ?_⟩
    obtain ⟨c, hc⟩ := hcust
    unfold createOrder
    rw [hc, heq]
  · intro hcust hnil
    obtain ⟨c, hc⟩ := hcust
    subst hnil
    unfold createOrder
    rw [hc]
    rfl

/-- Witness for C7: a successful creation with two linked products whose
total is the sum of their prices, and the three failure shapes. -/
theorem C7_witness :
    ((createOrder [⟨1, "Alice", "alice@example.com"⟩] [⟨2, "Laptop", 999, 10⟩] 9 [2]) =
      Except.error "Customer with ID \x279\x27 does not exist") ∧
    (∃ m ∈ [7], (([⟨2, "Laptop", 999, 10⟩] : List Product).find? (fun p => p.id == m)) = none ∧
      createOrder [⟨1, "Alice", "alice@example.com"⟩] [⟨2, "Laptop", 999, 10⟩] 1 [7] =
        Except.error ("Product with ID \x27" ++ toString m ++ "\x27 does not exist")) ∧
    (createOrder [⟨1, "Alice", "alice@example.com"⟩] [⟨2, "Laptop", 999, 10⟩] 1 [] =
      Except.error "At least one product is required") :=
  ⟨(C7_create_order [⟨1, "Alice", "alice@example.com"⟩] [⟨2, "Laptop", 999, 10⟩] 9 [2]).2.1
      (by decide),
   (C7_create_order [⟨1, "Alice", "alice@example.com"⟩] [⟨2, "Laptop", 999, 10⟩] 1 [7]).2.2.1
      ⟨⟨1, "Alice", "alice@example.com"⟩, by decide⟩ ⟨7, by decide, by decide⟩,
   (C7_create_order [⟨1, "Alice", "alice@example.com"⟩] [⟨2, "Laptop", 999, 10⟩] 1 []).2.2.2
      ⟨⟨1, "Alice", "alice@example.com"⟩, by decide⟩ rfl⟩

/-- C8 counterexample: the claim says any failure while probing degrades
the status field to "Check failed".  In the code, every exception raised
while probing is caught inside check_graphql_health itself, which then
returns False, so the heartbeat logs status "Unhealthy"; "Check failed"
would require an exception to escape the health check, which cannot
happen.  Concretely, with gql available and the probe raising, the logged
status is "Unhealthy", not "Check failed". -/
theorem C8_counterexample :
    (log_crm_heartbeat_run true ProbeStep.raises "01/01/2026-00:00:00"
        "2026-01-01 00:00:00" []).1 =
      ["[2026-01-01 00:00:00] 01/01/2026-00:00:00 CRM is alive | GraphQL: Unhealthy"] ∧
    heartbeatStatus true (Except.ok (check_graphql_health true ProbeStep.raises)) ≠
      "Check failed" :=
  ⟨rfl, by decide⟩

/-- C8 amended: the heartbeat never raises — it is a total function of
the probe outcome that, for every availability flag and every probe
outcome (a raised exception included), appends exactly its timestamped
"CRM is alive" line; a failure while probing is caught inside the health
check and degrades the status field to "Unhealthy" ("Check failed" is
the status only for an exception escaping the health check itself, which
the code cannot produce, though log_crm_heartbeat would still append its
line in that case too). -/
theorem C8_heartbeat_never_aborts (available : Bool) (step : ProbeStep) (ts wallTs : String)
    (log : List String) :
    (log_crm_heartbeat_run available step ts wallTs log).1 =
      log ++ ["[" ++ wallTs ++ "] " ++ (ts ++ " CRM is alive | GraphQL: " ++
        heartbeatStatus available (Except.ok (check_graphql_health available step)))] ∧
    (available = true → step = ProbeStep.raises →
      heartbeatStatus available (Except.ok (check_graphql_health available step)) =
        "Unhealthy") ∧
    (∀ chk : Except Unit Bool,
      (log_crm_heartbeat available chk ts wallTs log).1 =
        log ++ ["[" ++ wallTs ++ "] " ++ (ts ++ " CRM is alive | GraphQL: " ++
          heartbeatStatus available chk)]) ∧
    (∀ e : Unit, available = true → heartbeatStatus available (Except.error e) =
      "Check failed") := by
  refine ⟨rfl, ?_, fun chk => rfl, ?_⟩
  · intro ha hs
    subst ha
    subst hs
    rfl
  · intro e ha
    subst ha
    rfl

/-- Witness for the amended C8 at a concrete raising probe. -/
theorem C8_witness :
    (log_crm_heartbeat_run true ProbeStep.raises "TS" "WTS" ["old line"]).1 =
      ["old line"] ++ ["[" ++ "WTS" ++ "] " ++ ("TS" ++ " CRM is alive | GraphQL: " ++
        heartbeatStatus true (Except.ok (check_graphql_health true ProbeStep.raises)))] ∧
    heartbeatStatus true (Except.ok (check_graphql_health true ProbeStep.raises)) =
      "Unhealthy" :=
  ⟨(C8_heartbeat_never_aborts true ProbeStep.raises "TS" "WTS" ["old line"]).1,
   (C8_heartbeat_never_aborts true ProbeStep.raises "TS" "WTS" ["old line"]).2.1 rfl rfl⟩

/-- C9: the reporter's main exits nonzero exactly when constructing the
GraphQL client fails (the catastrophic top-level failure); when the
client is built but every query shape fails, the failure is logged, the
order list is treated as empty (the "no pending orders" line is logged),
and the process completes with exit status 0. -/
theorem C9_reporter_exit_status (clientCtor : Except String Unit)
    (q1 q2 : Except String (List OrderInfo)) :
    ((reporterMain clientCtor q1 q2).1 ≠ 0 ↔ ∃ e, clientCtor = Except.error e) ∧
    (∀ e1 e2, clientCtor = Except.ok () → q1 = Except.error e1 → q2 = Except.error e2 →
      (reporterMain clientCtor q1 q2).1 = 0 ∧
      ("All GraphQL query approaches failed: " ++ e2) ∈ (reporterMain clientCtor q1 q2).2 ∧
      "No pending orders found from the last 7 days." ∈ (reporterMain clientCtor q1 q2).2) := by
  constructor
  · cases clientCtor with
    | error e => simp [reporterMain]
    | ok u =>
      cases u
      simp [reporterMain]
  · intro e1 e2 hc h1 h2
    subst hc
    subst h1
    subst h2
    refine ⟨rfl, ?_, ?_⟩
    · simp [reporterMain, log_order_reminders]
    · simp [reporterMain, log_order_reminders]

/-- Witness for C9: client built, both query shapes fail. -/
theorem C9_witness :
    (reporterMain (Except.ok ()) (Except.error "shape one bad")
        (Except.error "shape two bad")).1 = 0 ∧
    ("All GraphQL query approaches failed: shape two bad") ∈
      (reporterMain (Except.ok ()) (Except.error "shape one bad")
        (Except.error "shape two bad")).2 ∧
    "No pending orders found from the last 7 days." ∈
      (reporterMain (Except.ok ()) (Except.error "shape one bad")
        (Except.error "shape two bad")).2 :=
  (C9_reporter_exit_status (Except.ok ()) (Except.error "shape one bad")
      (Except.error "shape two bad")).2 "shape one bad" "shape two bad" rfl rfl rfl

